import Mathlib

/-!
A verification development for a task-logging system: an automation-engine
callback plugin (`sqlite_logger.py`) that records one row per task outcome in
a SQLite table `task_logs`, and a query service (`app.py`) exposing the table
through `/api/playbooks` (grouped run summaries) and `/api/logs` (filtered,
paginated row listing).  The Python code is embedded shallowly: the SQLite
table is a list of rows, SQL queries become list operations with the same
semantics, and the plugin's mutable object state is passed explicitly.
-/

/-! ## Python values and `json.dumps(..., default=str)` -/

/-- Python values as they occur in a task result payload.  `obj s` stands for
an arbitrary non-JSON object whose `str()` form is `s` (the `default=str` hook
turns such a value into that string). -/
inductive PyValue where
  | none
  | bool (b : Bool)
  | int (n : Int)
  | str (s : String)
  | obj (s : String)
  | list (xs : List PyValue)
  | dict (kvs : List (PyValue × PyValue))

/-- Python truthiness, as used on `result._result.get('changed', False)`. -/
def truthy : PyValue → Bool
  | .none => false
  | .bool b => b
  | .int n => n != 0
  | .str s => s != ""
  | .obj _ => true
  | .list xs => !xs.isEmpty
  | .dict kvs => !kvs.isEmpty

/-- Python equality of a dict key against a string key: only an equal `str`
compares equal to a string. -/
def pyEqStr : PyValue → String → Bool
  | .str s, t => s == t
  | _, _ => false

/-- `d.get(k, dflt)` on a Python dict represented as a key/value list. -/
def pyDictGet (kvs : List (PyValue × PyValue)) (k : String) (dflt : PyValue) : PyValue :=
  match kvs.find? (fun kv => pyEqStr kv.1 k) with
  | some kv => kv.2
  | none => dflt

/-- JSON escaping of one character, as `json.dumps` emits quotes and
backslashes. -/
def jsonEscapeChar (c : Char) : String :=
  if c = '"' then "\\\"" else if c = '\\' then "\\\\" else String.singleton c

/-- Render a string as a JSON string literal. -/
def jsonQuote (s : String) : String :=
  "\"" ++ String.join (s.data.map jsonEscapeChar) ++ "\""

/-- Join serialized items with the default `json.dumps` item separator. -/
def joinComma (l : List String) : String :=
  match l with
  | [] => ""
  | x :: xs => xs.foldl (fun a b => a ++ ", " ++ b) x

/-- Dict keys in `json.dumps`: str, int, bool and None keys are coerced to
JSON strings; any other key type raises TypeError (the `default` hook is not
applied to keys), which makes the whole dump fail. -/
def dumpKey : PyValue → Option String
  | .str s => some (jsonQuote s)
  | .int n => some (jsonQuote (toString n))
  | .bool b => some (jsonQuote (cond b "true" "false"))
  | .none => some (jsonQuote "null")
  | _ => Option.none

mutual

/-- `json.dumps` on one value with `default=str`: primitives become JSON
literals, non-JSON objects fall back to their `str()` form, containers
recurse; a failure anywhere (a non-primitive dict key) fails the dump. -/
def dumpVal : PyValue → Option String
  | .none => some "null"
  | .bool b => some (cond b "true" "false")
  | .int n => some (toString n)
  | .str s => some (jsonQuote s)
  | .obj s => some (jsonQuote s)
  | .list xs => (dumpList xs).map (fun parts => "[" ++ joinComma parts ++ "]")
  | .dict kvs => (dumpDict kvs).map (fun parts => "\x7b" ++ joinComma parts ++ "\x7d")

/-- Serialize the items of a JSON array. -/
def dumpList : List PyValue → Option (List String)
  | [] => some []
  | x :: xs => do
    let s ← dumpVal x
    let rest ← dumpList xs
    pure (s :: rest)

/-- Serialize the entries of a JSON object. -/
def dumpDict : List (PyValue × PyValue) → Option (List String)
  | [] => some []
  | (k, v) :: xs => do
    let ks ← dumpKey k
    let vs ← dumpVal v
    let rest ← dumpDict xs
    pure ((ks ++ ": " ++ vs) :: rest)

end

/-- `json.dumps(result._result, default=str)`: the payload is a Python dict. -/
def pyJsonDumps (kvs : List (PyValue × PyValue)) : Option String :=
  dumpVal (.dict kvs)

/-! ## The recorder (`sqlite_logger.py`) -/

/-- One row of `task_logs` as the recorder inserts it (the store assigns the
auto-increment id). -/
structure Row where
  timestamp : String
  inventory_hostname : String
  playbook : String
  playbook_uuid : String
  module : String
  task_name : String
  status : String
  result : String
deriving DecidableEq

/-- The mutable state of `CallbackModule`: the connection (when open, the rows
written through it) and the run-scoped playbook name and uuid. -/
structure CallbackState where
  db_connection : Option (List Row)
  playbook_name : String
  playbook_uuid : String
deriving DecidableEq

/-- `CallbackModule.__init__` state before `_initialize_db` runs: no
connection, playbook name "Ad-Hoc", uuid "N/A". -/
def initState : CallbackState :=
  { db_connection := Option.none, playbook_name := "Ad-Hoc", playbook_uuid := "N/A" }

/-- The filesystem and store outcomes `_initialize_db` can encounter. -/
structure InitEnv where
  dir_exists : Bool
  makedirs_ok : Bool
  connect_ok : Bool
deriving DecidableEq

/-- The connection part of `_initialize_db`: when the directory is missing and
`os.makedirs` fails, warn and return with the connection still unset;
otherwise connect (on success the connection is open, with no rows yet written
through it) or, if connecting fails, warn and leave the connection unset. -/
def _initialize_db (st : CallbackState) (env : InitEnv) : CallbackState :=
  if !env.dir_exists && !env.makedirs_ok then st
  else if env.connect_ok then { st with db_connection := some [] }
  else st

/-- The schema-level view of the SQLite database file. -/
structure Store where
  tableExists : Bool
  columns : List String
  rows : List (List String)
deriving DecidableEq

/-- The column list of the `CREATE TABLE IF NOT EXISTS task_logs (...)`
statement in `_initialize_db`. -/
def createTableColumns : List String :=
  ["id", "timestamp", "inventory_hostname", "playbook", "playbook_uuid",
   "module", "task_name", "status", "result"]

/-- `CREATE TABLE IF NOT EXISTS`: creates the table with the full column list
when it is absent, otherwise changes nothing. -/
def createTableIfNotExists (s : Store) : Store :=
  if s.tableExists then s
  else { tableExists := true, columns := createTableColumns, rows := s.rows }

/-- `ALTER TABLE task_logs ADD COLUMN c` wrapped in try/except
`OperationalError`: adding an existing column raises, the exception is
swallowed, so the step is a no-op on such a store. -/
def addColumnIgnoringError (s : Store) (c : String) : Store :=
  if c ∈ s.columns then s else { s with columns := s.columns ++ [c] }

/-- The schema part of `_initialize_db`: create the table if absent, then
attempt the three additive migrations. -/
def initializeSchema (s : Store) : Store :=
  let s1 := createTableIfNotExists s
  let s2 := addColumnIgnoringError s1 "playbook"
  let s3 := addColumnIgnoringError s2 "playbook_uuid"
  addColumnIgnoringError s3 "module"

/-- `os.path.basename`: the part of a path after the last separator. -/
def basename (p : String) : String :=
  (p.splitOn "/").getLastD p

/-- `v2_playbook_on_start`: always update the playbook name to the base file
name; update the uuid only when the playbook object carries a `_uuid`
attribute. -/
def v2_playbook_on_start (st : CallbackState) (file_name : String)
    (uuid : Option String) : CallbackState :=
  let st1 := { st with playbook_name := basename file_name }
  match uuid with
  | some u => { st1 with playbook_uuid := u }
  | none => st1

/-- The fields `_log_result` reads off an Ansible result object: the host
name, the task name, the action (module) name and the result payload dict. -/
structure TaskResult where
  host : String
  task_name : String
  action : String
  result : List (PyValue × PyValue)

/-- `_log_result`: return silently when the connection is unset; otherwise
serialize the payload (placeholder string when serialization fails) and insert
one row carrying the run-scoped playbook name and uuid. -/
def _log_result (st : CallbackState) (now : String) (r : TaskResult)
    (status : String) : CallbackState :=
  match st.db_connection with
  | Option.none => st
  | some rows =>
    let result_json := (pyJsonDumps r.result).getD "Could not serialize result"
    { st with db_connection := some (rows ++
        [{ timestamp := now, inventory_hostname := r.host,
           playbook := st.playbook_name, playbook_uuid := st.playbook_uuid,
           module := r.action, task_name := r.task_name,
           status := status, result := result_json }]) }

/-- `v2_runner_on_ok`: status CHANGED when the payload's `changed` entry is
truthy, OK otherwise. -/
def v2_runner_on_ok (st : CallbackState) (now : String) (r : TaskResult) : CallbackState :=
  _log_result st now r
    (if truthy (pyDictGet r.result "changed" (PyValue.bool false)) then "CHANGED" else "OK")

/-- `v2_runner_on_failed`: FAILED_IGNORED when the caller passes
ignore_errors, FAILED otherwise. -/
def v2_runner_on_failed (st : CallbackState) (now : String) (r : TaskResult)
    (ignore_errors : Bool) : CallbackState :=
  _log_result st now r (if ignore_errors then "FAILED_IGNORED" else "FAILED")

/-- `v2_runner_on_unreachable`. -/
def v2_runner_on_unreachable (st : CallbackState) (now : String) (r : TaskResult) : CallbackState :=
  _log_result st now r "UNREACHABLE"

/-- `v2_runner_on_skipped`. -/
def v2_runner_on_skipped (st : CallbackState) (now : String) (r : TaskResult) : CallbackState :=
  _log_result st now r "SKIPPED"

/-- The callback invocations the automation engine makes after the plugin is
initialized. -/
inductive AnsibleEvent where
  | playbook_on_start (file_name : String) (uuid : Option String)
  | runner_on_ok (now : String) (r : TaskResult)
  | runner_on_failed (now : String) (r : TaskResult) (ignore_errors : Bool)
  | runner_on_unreachable (now : String) (r : TaskResult)
  | runner_on_skipped (now : String) (r : TaskResult)

/-- Dispatch one callback invocation. -/
def step (st : CallbackState) : AnsibleEvent → CallbackState
  | .playbook_on_start fn u => v2_playbook_on_start st fn u
  | .runner_on_ok now r => v2_runner_on_ok st now r
  | .runner_on_failed now r ie => v2_runner_on_failed st now r ie
  | .runner_on_unreachable now r => v2_runner_on_unreachable st now r
  | .runner_on_skipped now r => v2_runner_on_skipped st now r

/-- Process a whole sequence of callback invocations. -/
def runEvents (st : CallbackState) (evs : List AnsibleEvent) : CallbackState :=
  evs.foldl step st

/-- The status column of the most recently written row, if any. -/
def lastStatus (st : CallbackState) : Option String :=
  st.db_connection.bind (fun rows => rows.getLast?.map (fun row => row.status))

/-- The playbook_uuid column of the most recently written row, if any. -/
def lastRowUuid (st : CallbackState) : Option String :=
  st.db_connection.bind (fun rows => rows.getLast?.map (fun row => row.playbook_uuid))

/-- The uuid the recorder is left holding after a sequence of run-start
signals: the uuid of the most recent signal that carried one, or the initial
"N/A" sentinel when none ever did. -/
def lastCarriedUuid (uuids : List (Option String)) : String :=
  uuids.foldl (fun acc u => u.getD acc) "N/A"

/-! ## The query service (`app.py`) -/

/-- One row of `task_logs` as the query service reads it; `playbook`,
`playbook_uuid` and `module` may be NULL in rows that pre-date the additive
migration. -/
structure Entry where
  id : Nat
  timestamp : String
  inventory_hostname : String
  playbook : Option String
  playbook_uuid : Option String
  module : Option String
  task_name : String
  status : String
  result : String
deriving DecidableEq

/-- The query parameters of `/api/logs` with their parsed string values; an
empty string is an absent filter, status "ALL" is the no-status-filter
sentinel. -/
structure Filters where
  host : String
  playbook : String
  playbook_uuid : String
  module : String
  task : String
  status : String
  year : String
  month : String
  day : String
  hour : String
deriving DecidableEq

/-- Python `str.zfill`: left-pad with zeros to the given width, keeping a
leading sign character in front of the padding. -/
def zfill (width : Nat) (s : String) : String :=
  if width ≤ s.length then s
  else
    let pad := String.mk (List.replicate (width - s.length) '0')
    match s.data with
    | c :: rest => if c = '+' || c = '-' then String.mk (c :: (pad.data ++ rest)) else pad ++ s
    | [] => pad

/-- SQLite `LIKE` matching over characters: `%` matches any run of characters,
`_` matches exactly one, any other pattern character matches one character up
to ASCII case folding (SQLite's default LIKE is ASCII-case-insensitive). -/
def likeMatch : List Char → List Char → Bool
  | [], s => s.isEmpty
  | '%' :: ps, [] => likeMatch ps []
  | '%' :: ps, c :: ss => likeMatch ps (c :: ss) || likeMatch ('%' :: ps) ss
  | '_' :: _, [] => false
  | '_' :: ps, _ :: ss => likeMatch ps ss
  | _ :: _, [] => false
  | p :: ps, c :: ss => (p.toLower == c.toLower) && likeMatch ps ss
termination_by p s => (p.length, s.length)

/-- `column LIKE '%needle%'` on a non-NULL text column, as `api_logs` builds
its substring filters. -/
def likeContains (needle hay : String) : Bool :=
  likeMatch ('%' :: (needle.data ++ ['%'])) hay.data

/-- `column LIKE '%needle%'` on a nullable column: a NULL value satisfies no
LIKE condition. -/
def optLikeContains (needle : String) : Option String → Bool
  | Option.none => false
  | some s => likeContains needle s

/-- `strftime` year component of a stored `YYYY-MM-DD HH:MM:SS` timestamp. -/
def tsYear (ts : String) : String := String.mk (ts.data.take 4)

/-- `strftime` month component of a stored timestamp. -/
def tsMonth (ts : String) : String := String.mk ((ts.data.drop 5).take 2)

/-- `strftime` day component of a stored timestamp. -/
def tsDay (ts : String) : String := String.mk ((ts.data.drop 8).take 2)

/-- `strftime` hour component of a stored timestamp. -/
def tsHour (ts : String) : String := String.mk ((ts.data.drop 11).take 2)

/-- The WHERE clause `api_logs` builds: every supplied filter is ANDed in;
`host`/`playbook`/`module`/`task` are substring matches, `playbook_uuid` and
`status` exact matches, and the date parts compare `strftime` components
against the zero-padded parameter. -/
def matchesFilters (f : Filters) (e : Entry) : Bool :=
  (f.host == "" || likeContains f.host e.inventory_hostname) &&
  (f.playbook == "" || optLikeContains f.playbook e.playbook) &&
  (f.playbook_uuid == "" || e.playbook_uuid == some f.playbook_uuid) &&
  (f.module == "" || optLikeContains f.module e.module) &&
  (f.task == "" || likeContains f.task e.task_name) &&
  (f.status == "ALL" || e.status == f.status) &&
  (f.year == "" || tsYear e.timestamp == f.year) &&
  (f.month == "" || tsMonth e.timestamp == zfill 2 f.month) &&
  (f.day == "" || tsDay e.timestamp == zfill 2 f.day) &&
  (f.hour == "" || tsHour e.timestamp == zfill 2 f.hour)

/-- `PER_PAGE` from `app.py`. -/
def PER_PAGE : Nat := 100

/-- The JSON document `/api/logs` returns. -/
structure LogsPage where
  data : List Entry
  page : Nat
  total_pages : Nat
  total_records : Nat
deriving DecidableEq

/-- `api_logs`: one WHERE clause drives both the COUNT(*) query and the data
query; rows are ordered by id descending and sliced with LIMIT/OFFSET. -/
def api_logs (db : List Entry) (f : Filters) (page : Nat) : LogsPage :=
  let offset := (page - 1) * PER_PAGE
  let matched := db.filter (fun e => matchesFilters f e)
  let total_records := matched.length
  let total_pages := (total_records + (PER_PAGE - 1)) / PER_PAGE
  let ordered := matched.mergeSort (fun a b => decide (b.id ≤ a.id))
  { data := (ordered.drop offset).take PER_PAGE,
    page := page, total_pages := total_pages, total_records := total_records }

/-- The WHERE clause of `/api/playbooks`: the uuid is not NULL and not the
"N/A" sentinel. -/
def validRun (e : Entry) : Bool :=
  match e.playbook_uuid with
  | Option.none => false
  | some u => u != "N/A"

/-- The GROUP BY key of `/api/playbooks` (total on entries; on entries passing
`validRun` it is the carried uuid). -/
def uuidKey (e : Entry) : String := e.playbook_uuid.getD ""

/-- Least element of a nonempty list of strings, seeded with its head: SQL
`MIN(timestamp)` over one group (SQLite compares the stored text values). -/
def minOf (x : String) (xs : List String) : String := xs.foldl min x

/-- Greatest element of a nonempty list of strings: SQL `MAX(timestamp)`. -/
def maxOf (x : String) (xs : List String) : String := xs.foldl max x

/-- One output record of `/api/playbooks`. -/
structure RunSummary where
  playbook_uuid : String
  playbook : Option String
  start_time : String
  end_time : String
  task_count : Nat
deriving DecidableEq

/-- Aggregate one GROUP BY group: min/max timestamp and row count; the bare
`playbook` column is some row of the group (the model takes the first). -/
def summarize (u : String) (group : List Entry) : RunSummary :=
  { playbook_uuid := u,
    playbook := group.head?.bind (fun e => e.playbook),
    start_time :=
      match group.map (fun e => e.timestamp) with
      | [] => ""
      | t :: ts => minOf t ts,
    end_time :=
      match group.map (fun e => e.timestamp) with
      | [] => ""
      | t :: ts => maxOf t ts,
    task_count := group.length }

/-- `api_playbooks`: keep the rows passing `validRun`, group them by uuid,
aggregate each group, and order the summaries by start_time descending. -/
def api_playbooks (db : List Entry) : List RunSummary :=
  let valid := db.filter validRun
  let summaries := (valid.map uuidKey).dedup.map
    (fun u => summarize u (valid.filter (fun e => uuidKey e == u)))
  summaries.mergeSort (fun a b => decide (b.start_time ≤ a.start_time))

/-! ## Theorems: the recorder -/

/-- C1: For every task-outcome signal, the recorder derives the stored status
exactly as: kind ok with the result payload's changed flag true(-thy) yields
CHANGED, ok otherwise yields OK, failed with ignore-errors yields
FAILED_IGNORED, failed otherwise yields FAILED, unreachable yields
UNREACHABLE, and skipped yields SKIPPED. -/
theorem derived_status_table (st : CallbackState) (rows : List Row) (now : String)
    (r : TaskResult) (h : st.db_connection = some rows) :
    (truthy (pyDictGet r.result "changed" (PyValue.bool false)) = true →
      lastStatus (v2_runner_on_ok st now r) = some "CHANGED") ∧
    (truthy (pyDictGet r.result "changed" (PyValue.bool false)) = false →
      lastStatus (v2_runner_on_ok st now r) = some "OK") ∧
    lastStatus (v2_runner_on_failed st now r true) = some "FAILED_IGNORED" ∧
    lastStatus (v2_runner_on_failed st now r false) = some "FAILED" ∧
    lastStatus (v2_runner_on_unreachable st now r) = some "UNREACHABLE" ∧
    lastStatus (v2_runner_on_skipped st now r) = some "SKIPPED" := by
  have hlog : ∀ status, lastStatus (_log_result st now r status) = some status := by
    intro status
    simp [_log_result, h, lastStatus, List.getLast?_concat]
  refine ⟨?_, ?_, ?_, ?_, ?_, ?_⟩
  · intro hc; simp [v2_runner_on_ok, hc, hlog]
  · intro hc; simp [v2_runner_on_ok, hc, hlog]
  · simp [v2_runner_on_failed, hlog]
  · simp [v2_runner_on_failed, hlog]
  · simp [v2_runner_on_unreachable, hlog]
  · simp [v2_runner_on_skipped, hlog]

/-- C1 witness: the derivation at one concrete connected state and payload. -/
theorem derived_status_table_witness :
    lastStatus (v2_runner_on_ok
      { db_connection := some [], playbook_name := "site.yml", playbook_uuid := "u1" }
      "2024-03-07 15:04:05"
      { host := "web1", task_name := "ping hosts", action := "ping",
        result := [(PyValue.str "changed", PyValue.bool true)] }) = some "CHANGED" ∧
    lastStatus (v2_runner_on_failed
      { db_connection := some [], playbook_name := "site.yml", playbook_uuid := "u1" }
      "2024-03-07 15:04:05"
      { host := "web1", task_name := "ping hosts", action := "ping",
        result := [(PyValue.str "changed", PyValue.bool true)] } false) = some "FAILED" := by
  have h := derived_status_table
    { db_connection := some [], playbook_name := "site.yml", playbook_uuid := "u1" } []
    "2024-03-07 15:04:05"
    { host := "web1", task_name := "ping hosts", action := "ping",
      result := [(PyValue.str "changed", PyValue.bool true)] } rfl
  exact ⟨h.1 (by decide), h.2.2.2.1⟩

/-- C5: Running schema initialization any number of times against a store that
already has the table and every column is idempotent: each duplicate-column
ALTER is swallowed as a no-op, no column is duplicated and the stored rows are
unchanged. -/
theorem initializeSchema_idempotent (s : Store) (n : Nat)
    (ht : s.tableExists = true) (h1 : "playbook" ∈ s.columns)
    (h2 : "playbook_uuid" ∈ s.columns) (h3 : "module" ∈ s.columns) :
    initializeSchema^[n] s = s := by
  have hone : initializeSchema s = s := by
    simp [initializeSchema, createTableIfNotExists, addColumnIgnoringError, ht, h1, h2, h3]
  induction n with
  | zero => rfl
  | succ n ih => rw [Function.iterate_succ_apply, hone, ih]

/-- C5 witness: three re-initializations of a fully migrated store with one
stored row leave it exactly as it was. -/
theorem initializeSchema_idempotent_witness :
    initializeSchema^[3]
      { tableExists := true, columns := createTableColumns,
        rows := [["1", "2024-03-07 15:04:05", "web1", "site.yml", "u1", "ping",
                  "ping hosts", "OK", "null"]] } =
      { tableExists := true, columns := createTableColumns,
        rows := [["1", "2024-03-07 15:04:05", "web1", "site.yml", "u1", "ping",
                  "ping hosts", "OK", "null"]] } :=
  initializeSchema_idempotent _ 3 rfl (by decide) (by decide) (by decide)

/-- C6: When the result payload cannot be serialized, `_log_result` stores the
fixed placeholder string as the result and still writes the row; nothing is
propagated to the caller (the function is total and returns the updated
state). -/
theorem serialization_fallback (st : CallbackState) (rows : List Row) (now : String)
    (r : TaskResult) (status : String) (hconn : st.db_connection = some rows)
    (hser : pyJsonDumps r.result = Option.none) :
    (_log_result st now r status).db_connection = some (rows ++
      [{ timestamp := now, inventory_hostname := r.host, playbook := st.playbook_name,
         playbook_uuid := st.playbook_uuid, module := r.action, task_name := r.task_name,
         status := status, result := "Could not serialize result" }]) := by
  simp [_log_result, hconn, hser]

/-- C6 witness: a payload whose dict carries a list-valued key (a TypeError in
`json.dumps` even with `default=str`) is written as the placeholder row. -/
theorem serialization_fallback_witness :
    (_log_result
      { db_connection := some [], playbook_name := "site.yml", playbook_uuid := "u1" }
      "2024-03-07 15:04:05"
      { host := "web1", task_name := "ping hosts", action := "ping",
        result := [(PyValue.list [], PyValue.none)] } "OK").db_connection = some
      [{ timestamp := "2024-03-07 15:04:05", inventory_hostname := "web1",
         playbook := "site.yml", playbook_uuid := "u1", module := "ping",
         task_name := "ping hosts", status := "OK",
         result := "Could not serialize result" }] :=
  serialization_fallback
    { db_connection := some [], playbook_name := "site.yml", playbook_uuid := "u1" } []
    "2024-03-07 15:04:05"
    { host := "web1", task_name := "ping hosts", action := "ping",
      result := [(PyValue.list [], PyValue.none)] } "OK" rfl (by decide)

/-- Every single callback invocation keeps an unset connection unset: the
runner callbacks return from `_log_result` at once and `v2_playbook_on_start`
does not touch the connection. -/
theorem step_preserves_no_connection (st : CallbackState) (ev : AnsibleEvent)
    (h : st.db_connection = Option.none) : (step st ev).db_connection = Option.none := by
  cases ev with
  | playbook_on_start fn u =>
    cases u <;> simp [step, v2_playbook_on_start, h]
  | runner_on_ok now r => simp [step, v2_runner_on_ok, _log_result, h]
  | runner_on_failed now r ie => simp [step, v2_runner_on_failed, _log_result, h]
  | runner_on_unreachable now r => simp [step, v2_runner_on_unreachable, _log_result, h]
  | runner_on_skipped now r => simp [step, v2_runner_on_skipped, _log_result, h]

/-- A connectionless state stays connectionless over any event sequence. -/
theorem runEvents_preserves_no_connection (evs : List AnsibleEvent) :
    ∀ st : CallbackState, st.db_connection = Option.none →
      (runEvents st evs).db_connection = Option.none := by
  induction evs with
  | nil => intro st h; exact h
  | cons ev evs ih =>
    intro st h
    simp only [runEvents, List.foldl_cons]
    exact ih (step st ev) (step_preserves_no_connection st ev h)

/-- C7: If directory creation fails during initialization, the recorder is
disabled for the rest of the process: after any sequence of subsequent
callback invocations the connection is still unset, so no row is ever written
to the store by this process. -/
theorem dir_failure_disables_recorder (env : InitEnv) (evs : List AnsibleEvent)
    (hdir : env.dir_exists = false) (hmk : env.makedirs_ok = false) :
    (runEvents (_initialize_db initState env) evs).db_connection = Option.none := by
  apply runEvents_preserves_no_connection
  simp [_initialize_db, hdir, hmk, initState]

/-- C7 witness: a concrete failed-mkdir environment followed by a run start
and task-outcome signals writes nothing. -/
theorem dir_failure_disables_recorder_witness :
    (runEvents (_initialize_db initState
        { dir_exists := false, makedirs_ok := false, connect_ok := true })
      [AnsibleEvent.playbook_on_start "/opt/play/site.yml" (some "u1"),
       AnsibleEvent.runner_on_ok "2024-03-07 15:04:05"
         { host := "web1", task_name := "ping hosts", action := "ping", result := [] },
       AnsibleEvent.runner_on_failed "2024-03-07 15:04:06"
         { host := "web1", task_name := "copy file", action := "copy", result := [] }
         false]).db_connection = Option.none :=
  dir_failure_disables_recorder _ _ rfl rfl

/-- The uuid held after a sequence of run-start signals, starting anywhere:
each signal's carried uuid overwrites, an absent one keeps the previous. -/
theorem foldl_on_start_uuid (starts : List (String × Option String)) :
    ∀ st : CallbackState,
      (starts.foldl (fun s p => v2_playbook_on_start s p.1 p.2) st).playbook_uuid
        = (starts.map Prod.snd).foldl (fun acc u => u.getD acc) st.playbook_uuid := by
  induction starts with
  | nil => intro st; rfl
  | cons p ps ih =>
    intro st
    simp only [List.foldl_cons, List.map_cons]
    rw [ih]
    congr 1
    cases hp : p.2 <;> simp [v2_playbook_on_start, hp]

/-- C10: A run-start signal carrying no run identifier leaves the held uuid
unchanged (no reset to the "N/A" sentinel) while the playbook name is always
updated to the new base file name; over any sequence of run-start signals the
held uuid is that of the most recent signal that carried one, or "N/A" when
none ever did; and a row written afterwards carries the currently held uuid. -/
theorem uuid_retention_on_start (st : CallbackState) (fn : String)
    (starts : List (String × Option String)) (rows : List Row) (now : String)
    (r : TaskResult) (hconn : st.db_connection = some rows) :
    (v2_playbook_on_start st fn Option.none).playbook_uuid = st.playbook_uuid ∧
    (v2_playbook_on_start st fn Option.none).playbook_name = basename fn ∧
    (starts.foldl (fun s p => v2_playbook_on_start s p.1 p.2) initState).playbook_uuid
      = lastCarriedUuid (starts.map Prod.snd) ∧
    lastRowUuid (v2_runner_on_ok st now r) = some st.playbook_uuid := by
  refine ⟨rfl, rfl, ?_, ?_⟩
  · rw [foldl_on_start_uuid]; rfl
  · simp [v2_runner_on_ok, _log_result, hconn, lastRowUuid, List.getLast?_concat]

/-- C10 witness: a run start without a uuid after one that carried "u1", and a
row written in that state. -/
theorem uuid_retention_on_start_witness :
    (v2_playbook_on_start
      { db_connection := some [], playbook_name := "site.yml", playbook_uuid := "u1" }
      "/opt/play/deploy.yml" Option.none).playbook_uuid = "u1" ∧
    (v2_playbook_on_start
      { db_connection := some [], playbook_name := "site.yml", playbook_uuid := "u1" }
      "/opt/play/deploy.yml" Option.none).playbook_name = basename "/opt/play/deploy.yml" ∧
    ([("a.yml", some "u1"), ("b.yml", Option.none)].foldl
      (fun s p => v2_playbook_on_start s p.1 p.2) initState).playbook_uuid
      = lastCarriedUuid [some "u1", Option.none] ∧
    lastRowUuid (v2_runner_on_ok
      { db_connection := some [], playbook_name := "site.yml", playbook_uuid := "u1" }
      "2024-03-07 15:04:05"
      { host := "web1", task_name := "ping hosts", action := "ping", result := [] })
      = some "u1" := by
  have h := uuid_retention_on_start
    { db_connection := some [], playbook_name := "site.yml", playbook_uuid := "u1" }
    "/opt/play/deploy.yml" [("a.yml", some "u1"), ("b.yml", Option.none)] []
    "2024-03-07 15:04:05"
    { host := "web1", task_name := "ping hosts", action := "ping", result := [] } rfl
  exact ⟨h.1, h.2.1, h.2.2.1, h.2.2.2⟩

/-- C8 as stated fails: creating the table in a store with no table does not
produce the seven-column base table the claim lists, because `playbook_uuid`
and `module` are part of the CREATE TABLE statement itself. -/
theorem create_table_seven_columns_counterexample :
    ¬ ((createTableIfNotExists { tableExists := false, columns := [], rows := [] }).columns =
      ["id", "timestamp", "inventory_hostname", "playbook", "task_name", "status",
       "result"]) := by
  decide

/-- C8 (amended): On initialization against a store with no table, the
recorder creates the table with exactly the columns id, timestamp,
inventory_hostname, playbook, playbook_uuid, module, task_name, status and
result; the subsequent additive-migration steps are no-ops on the freshly
created table. -/
theorem create_table_all_columns (s : Store) (h : s.tableExists = false) :
    (createTableIfNotExists s).columns =
      ["id", "timestamp", "inventory_hostname", "playbook", "playbook_uuid",
       "module", "task_name", "status", "result"] ∧
    initializeSchema s = createTableIfNotExists s := by
  have hadd : ∀ (t : Store) (c : String), c ∈ t.columns → addColumnIgnoringError t c = t := by
    intro t c hc
    simp [addColumnIgnoringError, hc]
  have hcreate : createTableIfNotExists s =
      { tableExists := true, columns := createTableColumns, rows := s.rows } := by
    simp [createTableIfNotExists, h]
  constructor
  · rw [hcreate]
    rfl
  · simp only [initializeSchema]
    rw [hcreate]
    rw [hadd { tableExists := true, columns := createTableColumns, rows := s.rows }
      "playbook" (by simp [createTableColumns])]
    rw [hadd { tableExists := true, columns := createTableColumns, rows := s.rows }
      "playbook_uuid" (by simp [createTableColumns])]
    rw [hadd { tableExists := true, columns := createTableColumns, rows := s.rows }
      "module" (by simp [createTableColumns])]

/-- C8 witness: initializing an empty store. -/
theorem create_table_all_columns_witness :
    (createTableIfNotExists { tableExists := false, columns := [], rows := [] }).columns =
      ["id", "timestamp", "inventory_hostname", "playbook", "playbook_uuid",
       "module", "task_name", "status", "result"] ∧
    initializeSchema { tableExists := false, columns := [], rows := [] } =
      createTableIfNotExists { tableExists := false, columns := [], rows := [] } :=
  create_table_all_columns _ rfl

/-! ## Theorems: the query service -/

/-- Concatenating the first `k` LIMIT/OFFSET slices of size `n` yields the
first `k * n` elements. -/
theorem flatten_range_take_drop {α : Type} (n : Nat) (l : List α) (k : Nat) :
    ((List.range k).map (fun i => ((l.drop (i * n)).take n))).flatten = l.take (k * n) := by
  induction k with
  | zero => simp
  | succ k ih =>
    rw [List.range_succ, List.map_append, List.flatten_append]
    simp only [List.map_cons, List.map_nil, List.flatten_cons, List.flatten_nil,
      List.append_nil]
    rw [ih, Nat.succ_mul, List.take_add]

/-- C2: `total_records` and the returned pages come from one filter
predicate: for every filter combination, concatenating every page of results
(pages 1 through total_pages) yields exactly total_records entries. -/
theorem api_logs_count_matches_pages (db : List Entry) (f : Filters) :
    ((List.range (api_logs db f 1).total_pages).map
        (fun i => (api_logs db f (i + 1)).data)).flatten.length
      = (api_logs db f 1).total_records := by
  simp only [api_logs, PER_PAGE, Nat.add_sub_cancel]
  rw [flatten_range_take_drop]
  rw [List.length_take, List.length_mergeSort]
  omega

/-- C3: `total_pages` is the ceiling of total_records / 100; a page number
beyond total_pages yields zero entries (and no error: the operation is total);
an empty result set yields zero entries, total_pages = 0 and
total_records = 0. -/
theorem api_logs_pagination (db : List Entry) (f : Filters) (p : Nat) :
    (api_logs db f p).total_pages
        = ((db.filter (fun e => matchesFilters f e)).length + 99) / 100 ∧
    ((api_logs db f p).total_pages < p → (api_logs db f p).data = []) ∧
    ((db.filter (fun e => matchesFilters f e)).length = 0 →
      (api_logs db f p).data = [] ∧ (api_logs db f p).total_pages = 0 ∧
        (api_logs db f p).total_records = 0) := by
  refine ⟨rfl, ?_, ?_⟩
  · intro hp
    simp only [api_logs, PER_PAGE] at hp ⊢
    have hlen : ((db.filter (fun e => matchesFilters f e)).mergeSort
        (fun a b => decide (b.id ≤ a.id))).length ≤ (p - 1) * 100 := by
      rw [List.length_mergeSort]
      omega
    rw [List.drop_eq_nil_of_le hlen, List.take_nil]
  · intro h0
    have hnil : db.filter (fun e => matchesFilters f e) = [] := List.length_eq_zero.mp h0
    simp [api_logs, hnil, PER_PAGE]

/-- `zfill 2` always produces at least two characters. -/
theorem zfill_two_length (v : String) : 2 ≤ (zfill 2 v).length := by
  by_cases h : 2 ≤ v.length
  · rw [zfill, if_pos h]
    exact h
  · rw [zfill, if_neg h]
    cases hd : v.data with
    | nil =>
      have h0 : v.length = 0 := by
        rw [show v.length = v.data.length from rfl, hd]
        rfl
      simp only [hd, h0]
      decide
    | cons c rest =>
      have h1 : v.length = rest.length + 1 := by
        rw [show v.length = v.data.length from rfl, hd]
        simp
      simp only [hd]
      split
      · simp only [String.length_mk, List.length_cons, List.length_append,
          List.length_replicate]
        omega
      · rw [String.length_append, String.length_mk, List.length_replicate]
        omega

/-- `zfill 2` is idempotent. -/
theorem zfill_two_idem (v : String) : zfill 2 (zfill 2 v) = zfill 2 v := by
  have h := zfill_two_length v
  rw [zfill]
  simp [h]

/-- A `zfill 2` result is never the empty string. -/
theorem zfill_two_ne_empty (v : String) : zfill 2 v ≠ "" := by
  intro he
  have h := zfill_two_length v
  rw [he] at h
  simp at h

/-- Replacing a supplied month filter by its two-digit zero-padded form gives
the same WHERE predicate, since `api_logs` pads it before comparing anyway. -/
theorem matchesFilters_month_zfill (f : Filters) (v : String) (hv : v ≠ "") :
    (fun e => matchesFilters { f with month := v } e)
      = fun e => matchesFilters { f with month := zfill 2 v } e := by
  funext e
  simp only [matchesFilters, zfill_two_idem]
  rw [show (v == "") = false from beq_eq_false_iff_ne.mpr hv,
    show (zfill 2 v == "") = false from beq_eq_false_iff_ne.mpr (zfill_two_ne_empty v)]

/-- The analogous predicate equality for the day filter. -/
theorem matchesFilters_day_zfill (f : Filters) (v : String) (hv : v ≠ "") :
    (fun e => matchesFilters { f with day := v } e)
      = fun e => matchesFilters { f with day := zfill 2 v } e := by
  funext e
  simp only [matchesFilters, zfill_two_idem]
  rw [show (v == "") = false from beq_eq_false_iff_ne.mpr hv,
    show (zfill 2 v == "") = false from beq_eq_false_iff_ne.mpr (zfill_two_ne_empty v)]

/-- The analogous predicate equality for the hour filter. -/
theorem matchesFilters_hour_zfill (f : Filters) (v : String) (hv : v ≠ "") :
    (fun e => matchesFilters { f with hour := v } e)
      = fun e => matchesFilters { f with hour := zfill 2 v } e := by
  funext e
  simp only [matchesFilters, zfill_two_idem]
  rw [show (v == "") = false from beq_eq_false_iff_ne.mpr hv,
    show (zfill 2 v == "") = false from beq_eq_false_iff_ne.mpr (zfill_two_ne_empty v)]

/-- C9: For every store contents and every supplied (nonempty) month, day or
hour filter value, `/api/logs` returns the same result for the value and for
its two-digit left-zero-padded form, because the value is zero-padded to two
digits before the comparison against the timestamp component. -/
theorem api_logs_date_zfill_equiv (db : List Entry) (f : Filters) (v : String)
    (p : Nat) (hv : v ≠ "") :
    api_logs db { f with month := v } p = api_logs db { f with month := zfill 2 v } p ∧
    api_logs db { f with day := v } p = api_logs db { f with day := zfill 2 v } p ∧
    api_logs db { f with hour := v } p = api_logs db { f with hour := zfill 2 v } p := by
  refine ⟨?_, ?_, ?_⟩
  · unfold api_logs
    rw [matchesFilters_month_zfill f v hv]
  · unfold api_logs
    rw [matchesFilters_day_zfill f v hv]
  · unfold api_logs
    rw [matchesFilters_hour_zfill f v hv]

/-- C9 witness: the filter values "3" and "03" at one concrete query. -/
theorem api_logs_date_zfill_equiv_witness :
    api_logs []
        { host := "", playbook := "", playbook_uuid := "", module := "", task := "",
          status := "ALL", year := "", month := "3", day := "", hour := "" } 1
      = api_logs []
        { host := "", playbook := "", playbook_uuid := "", module := "", task := "",
          status := "ALL", year := "", month := "03", day := "", hour := "" } 1 ∧
    api_logs []
        { host := "", playbook := "", playbook_uuid := "", module := "", task := "",
          status := "ALL", year := "", month := "", day := "3", hour := "" } 1
      = api_logs []
        { host := "", playbook := "", playbook_uuid := "", module := "", task := "",
          status := "ALL", year := "", month := "", day := "03", hour := "" } 1 ∧
    api_logs []
        { host := "", playbook := "", playbook_uuid := "", module := "", task := "",
          status := "ALL", year := "", month := "", day := "", hour := "3" } 1
      = api_logs []
        { host := "", playbook := "", playbook_uuid := "", module := "", task := "",
          status := "ALL", year := "", month := "", day := "", hour := "03" } 1 :=
  api_logs_date_zfill_equiv []
    { host := "", playbook := "", playbook_uuid := "", module := "", task := "",
      status := "ALL", year := "", month := "", day := "", hour := "" } "3" 1
    (by decide)

/-- The fold-computed minimum is an element of the list. -/
theorem minOf_mem (x : String) (xs : List String) : minOf x xs ∈ x :: xs := by
  induction xs generalizing x with
  | nil => simp [minOf]
  | cons y ys ih =>
    have h := ih (min x y)
    show minOf (min x y) ys ∈ x :: y :: ys
    rcases List.mem_cons.mp h with h1 | h1
    · rcases min_choice x y with hc | hc
      · rw [h1, hc]
        exact List.mem_cons_self _ _
      · rw [h1, hc]
        exact List.mem_cons_of_mem _ (List.mem_cons_self _ _)
    · exact List.mem_cons_of_mem _ (List.mem_cons_of_mem _ h1)

/-- The fold-computed minimum is a lower bound of the list. -/
theorem minOf_le (x : String) (xs : List String) : ∀ y ∈ x :: xs, minOf x xs ≤ y := by
  induction xs generalizing x with
  | nil =>
    intro y hy
    simp at hy
    subst hy
    exact le_refl _
  | cons z zs ih =>
    intro y hy
    show minOf (min x z) zs ≤ y
    have hmem := ih (min x z) (min x z) (List.mem_cons_self _ _)
    rcases List.mem_cons.mp hy with h1 | h1
    · calc minOf (min x z) zs ≤ min x z := hmem
        _ ≤ x := min_le_left _ _
        _ = y := h1.symm
    · rcases List.mem_cons.mp h1 with h2 | h2
      · calc minOf (min x z) zs ≤ min x z := hmem
          _ ≤ z := min_le_right _ _
          _ = y := h2.symm
      · exact ih (min x z) y (List.mem_cons_of_mem _ h2)

/-- The fold-computed maximum is an element of the list. -/
theorem maxOf_mem (x : String) (xs : List String) : maxOf x xs ∈ x :: xs := by
  induction xs generalizing x with
  | nil => simp [maxOf]
  | cons y ys ih =>
    have h := ih (max x y)
    show maxOf (max x y) ys ∈ x :: y :: ys
    rcases List.mem_cons.mp h with h1 | h1
    · rcases max_choice x y with hc | hc
      · rw [h1, hc]
        exact List.mem_cons_self _ _
      · rw [h1, hc]
        exact List.mem_cons_of_mem _ (List.mem_cons_self _ _)
    · exact List.mem_cons_of_mem _ (List.mem_cons_of_mem _ h1)

/-- The fold-computed maximum is an upper bound of the list. -/
theorem le_maxOf (x : String) (xs : List String) : ∀ y ∈ x :: xs, y ≤ maxOf x xs := by
  induction xs generalizing x with
  | nil =>
    intro y hy
    simp at hy
    subst hy
    exact le_refl _
  | cons z zs ih =>
    intro y hy
    show y ≤ maxOf (max x z) zs
    have hmem := ih (max x z) (max x z) (List.mem_cons_self _ _)
    rcases List.mem_cons.mp hy with h1 | h1
    · calc y = x := h1
        _ ≤ max x z := le_max_left _ _
        _ ≤ maxOf (max x z) zs := hmem
    · rcases List.mem_cons.mp h1 with h2 | h2
      · calc y = z := h2
          _ ≤ max x z := le_max_right _ _
          _ ≤ maxOf (max x z) zs := hmem
      · exact ih (max x z) y (List.mem_cons_of_mem _ h2)

/-- C4: `/api/playbooks` returns exactly one summary per distinct
playbook_uuid among entries whose uuid is neither NULL nor "N/A"; each
summary's task_count is its group's size and its start_time/end_time are the
least/greatest timestamp of the group; the output is ordered by start_time
descending; and no NULL/"N/A" entry contributes to or appears in it. -/
theorem api_playbooks_spec (db : List Entry) :
    ((api_playbooks db).map (fun r => r.playbook_uuid)).Nodup ∧
    (∀ u : String, u ∈ (api_playbooks db).map (fun r => r.playbook_uuid) ↔
      ∃ e ∈ db, e.playbook_uuid = some u ∧ u ≠ "N/A") ∧
    (∀ r ∈ api_playbooks db,
      r.playbook_uuid ≠ "N/A" ∧
      r.task_count = ((db.filter validRun).filter
        (fun e => uuidKey e == r.playbook_uuid)).length ∧
      r.start_time ∈ ((db.filter validRun).filter
        (fun e => uuidKey e == r.playbook_uuid)).map (fun e => e.timestamp) ∧
      (∀ t ∈ ((db.filter validRun).filter
          (fun e => uuidKey e == r.playbook_uuid)).map (fun e => e.timestamp),
        r.start_time ≤ t) ∧
      r.end_time ∈ ((db.filter validRun).filter
        (fun e => uuidKey e == r.playbook_uuid)).map (fun e => e.timestamp) ∧
      (∀ t ∈ ((db.filter validRun).filter
          (fun e => uuidKey e == r.playbook_uuid)).map (fun e => e.timestamp),
        t ≤ r.end_time)) ∧
    List.Pairwise (fun a b => b.start_time ≤ a.start_time) (api_playbooks db) := by
  have hunfold : api_playbooks db
      = (((db.filter validRun).map uuidKey).dedup.map
          (fun u => summarize u
            ((db.filter validRun).filter (fun e => uuidKey e == u)))).mergeSort
        (fun a b => decide (b.start_time ≤ a.start_time)) := rfl
  have hperm : (api_playbooks db).Perm
      (((db.filter validRun).map uuidKey).dedup.map
        (fun u => summarize u ((db.filter validRun).filter (fun e => uuidKey e == u)))) := by
    rw [hunfold]
    exact List.mergeSort_perm _ _
  have hSuuid : ((((db.filter validRun).map uuidKey).dedup.map
      (fun u => summarize u ((db.filter validRun).filter (fun e => uuidKey e == u)))).map
        (fun r => r.playbook_uuid)) = ((db.filter validRun).map uuidKey).dedup := by
    rw [List.map_map]
    exact List.map_id' _
  have hval : ∀ e : Entry, validRun e = true ↔ ∃ w, e.playbook_uuid = some w ∧ w ≠ "N/A" := by
    intro e
    cases hpu : e.playbook_uuid with
    | none => simp [validRun, hpu]
    | some w => simp [validRun, hpu]
  have huuid : ∀ (e : Entry) (w : String), e.playbook_uuid = some w → uuidKey e = w := by
    intro e w h
    simp [uuidKey, h]
  have hmemchar : ∀ u : String,
      u ∈ ((db.filter validRun).map uuidKey).dedup ↔
        ∃ e ∈ db, e.playbook_uuid = some u ∧ u ≠ "N/A" := by
    intro u
    rw [List.mem_dedup, List.mem_map]
    constructor
    · rintro ⟨e, he, hke⟩
      rw [List.mem_filter] at he
      obtain ⟨hedb, hev⟩ := he
      obtain ⟨w, hw, hwn⟩ := (hval e).mp hev
      have hkw : uuidKey e = w := huuid e w hw
      have hwu : w = u := by rw [← hkw, hke]
      exact ⟨e, hedb, by rw [hw, hwu], hwu ▸ hwn⟩
    · rintro ⟨e, hedb, hpu, hun⟩
      refine ⟨e, ?_, huuid e u hpu⟩
      rw [List.mem_filter]
      exact ⟨hedb, (hval e).mpr ⟨u, hpu, hun⟩⟩
  have hgroup : ∀ u ∈ ((db.filter validRun).map uuidKey).dedup,
      ∃ e, e ∈ (db.filter validRun).filter (fun e => uuidKey e == u) := by
    intro u hu
    rw [List.mem_dedup, List.mem_map] at hu
    obtain ⟨e, he, hke⟩ := hu
    exact ⟨e, List.mem_filter.mpr ⟨he, by simp [hke]⟩⟩
  refine ⟨?_, ?_, ?_, ?_⟩
  · have hni := (hperm.map (fun r => r.playbook_uuid)).nodup_iff
    rw [hSuuid] at hni
    exact hni.mpr (List.nodup_dedup _)
  · intro u
    rw [(hperm.map (fun r => r.playbook_uuid)).mem_iff, hSuuid]
    exact hmemchar u
  · intro r hr
    rw [hunfold, List.mem_mergeSort, List.mem_map] at hr
    obtain ⟨u, hu, hru⟩ := hr
    obtain ⟨e0, he0⟩ := hgroup u hu
    subst hru
    rw [show (summarize u ((db.filter validRun).filter
      (fun e => uuidKey e == u))).playbook_uuid = u from rfl]
    obtain ⟨a, as, hgl⟩ : ∃ a as,
        (db.filter validRun).filter (fun e => uuidKey e == u) = a :: as := by
      cases hgc : (db.filter validRun).filter (fun e => uuidKey e == u) with
      | nil =>
        rw [hgc] at he0
        exact absurd he0 (List.not_mem_nil _)
      | cons a as => exact ⟨a, as, rfl⟩
    have hst : (summarize u ((db.filter validRun).filter
        (fun e => uuidKey e == u))).start_time
        = minOf a.timestamp (as.map (fun e => e.timestamp)) := by
      rw [hgl]
      rfl
    have hen : (summarize u ((db.filter validRun).filter
        (fun e => uuidKey e == u))).end_time
        = maxOf a.timestamp (as.map (fun e => e.timestamp)) := by
      rw [hgl]
      rfl
    refine ⟨?_, rfl, ?_, ?_, ?_, ?_⟩
    · obtain ⟨he0v, he0k⟩ := List.mem_filter.mp he0
      obtain ⟨w, hw, hwn⟩ := (hval e0).mp (List.mem_filter.mp he0v).2
      have hkw : uuidKey e0 = w := huuid e0 w hw
      have hwu : w = u := by
        rw [← hkw]
        exact beq_iff_eq.mp he0k
      rw [← hwu]
      exact hwn
    · rw [hst, hgl, List.map_cons]
      exact minOf_mem _ _
    · intro t ht
      rw [hgl, List.map_cons] at ht
      rw [hst]
      exact minOf_le _ _ t ht
    · rw [hen, hgl, List.map_cons]
      exact maxOf_mem _ _
    · intro t ht
      rw [hgl, List.map_cons] at ht
      rw [hen]
      exact le_maxOf _ _ t ht
  · have htrans : ∀ a b c : RunSummary,
        (decide (b.start_time ≤ a.start_time)) = true →
        (decide (c.start_time ≤ b.start_time)) = true →
        (decide (c.start_time ≤ a.start_time)) = true := by
      intro a b c hab hbc
      simp only [decide_eq_true_eq] at hab hbc ⊢
      exact le_trans hbc hab
    have htotal : ∀ a b : RunSummary,
        ((decide (b.start_time ≤ a.start_time))
          || (decide (a.start_time ≤ b.start_time))) = true := by
      intro a b
      rcases le_total b.start_time a.start_time with h | h <;> simp [h]
    have hs := List.sorted_mergeSort htrans htotal
      (((db.filter validRun).map uuidKey).dedup.map
        (fun u => summarize u ((db.filter validRun).filter (fun e => uuidKey e == u))))
    rw [hunfold]
    exact hs.imp (fun h => decide_eq_true_eq.mp h)
